import Mathlib

/-!
Verification of the SpokenSite request handlers.

Shallow embedding of the four source files:
  * `src/api/webhook.js`   — ElevenLabs webhook handler with HMAC authentication,
    transcript extraction from four payload shapes, and a fenced-code-block
    unwrap of the generation collaborator's answer.
  * `src/api/generate.js`  — direct-submission handler (transcript in the body),
    KV persistence in a try/catch, and a split-with-trim unwrap.
  * `src/unnamed/part_000` — early webhook variant (400 on missing transcript).
  * `src/unnamed/part_001` — Supabase webhook variant (prefix/suffix slicing
    unwrap, persistence awaited without a try/catch).

JavaScript strings are `String`/`List Char`; JSON values are the inductive
`JsonV` (numbers restricted to integers — no claim here touches numerics);
`undefined` is `Option.none`; JS truthiness is `jsTruthyV`/`jsTruthyS`.
External collaborators (Node's `crypto.createHmac` digest, the generation
API call, the KV / Supabase writes) are passed to the handlers as function
or `Except` parameters, mirroring the spec's "external collaborator" scoping.
All definitions are executable.
-/

namespace SpokenSite

/-! ## Basic character/list utilities (JS string semantics) -/

/-- Whitespace recognized by the embedding of JS `String.prototype.trim`
(restricted to the ASCII whitespace the repository's data can contain). -/
def wsCharB (c : Char) : Bool :=
  (c == ' ') || (c == '\n') || (c == '\t') || (c == '\r')

/-- Drop leading whitespace (left half of JS `trim`). -/
def trimLeftL (l : List Char) : List Char := l.dropWhile wsCharB

/-- Drop trailing whitespace (right half of JS `trim`). -/
def trimRightL (l : List Char) : List Char := (l.reverse.dropWhile wsCharB).reverse

/-- JS `String.prototype.trim` on character lists. -/
def jsTrimL (l : List Char) : List Char := trimRightL (trimLeftL l)

/-- JS `String.prototype.trim`. -/
def jsTrimS (s : String) : String := String.mk (jsTrimL s.data)

/-- First occurrence of `pat` in a character list: `some (before, after)`
where `after` is everything past the matched occurrence, `none` when `pat`
does not occur.  This is the primitive behind the embeddings of JS
`includes`, `split(...)[0]` and `split(...)[1]` (all patterns used by the
repository are nonempty). -/
def splitFirst (pat : List Char) : List Char → Option (List Char × List Char)
  | [] => if pat = [] then some ([], []) else none
  | c :: cs =>
    if pat.isPrefixOf (c :: cs) then some ([], (c :: cs).drop pat.length)
    else
      match splitFirst pat cs with
      | some (pre, post) => some (c :: pre, post)
      | none => none

/-- JS `content.includes(pat)`. -/
def jsIncludes (s pat : String) : Bool := (splitFirst pat.data s.data).isSome

/-- JS `s.split(pat)[0]`: the text before the first occurrence of `pat`
(the whole text when `pat` does not occur). -/
def headSegment (pat s : List Char) : List Char :=
  match splitFirst pat s with
  | some (pre, _) => pre
  | none => s

/-- JS `s.split(pat)[1]`: the text between the first and second occurrences
of `pat` (the tail after the first occurrence when there is no second one);
`none` (`undefined`) when `pat` does not occur at all. -/
def secondSegment (pat s : List Char) : Option (List Char) :=
  (splitFirst pat s).map (fun pr => headSegment pat pr.2)

/-- JS `String.prototype.replace` with a plain-string pattern: replaces only
the first occurrence. -/
def replaceFirstList (pat rep : List Char) : List Char → List Char
  | [] => []
  | c :: cs =>
    if pat.isPrefixOf (c :: cs) then rep ++ (c :: cs).drop pat.length
    else c :: replaceFirstList pat rep cs

/-- `signature.replace('sha256=', '')` from `src/api/webhook.js` line 21
(note: JS `replace` strips the first occurrence anywhere, not only a prefix). -/
def stripSha (s : String) : String :=
  String.mk (replaceFirstList "sha256=".data [] s.data)

/-! ## Hex decoding (Node `Buffer.from(s, 'hex')`) -/

/-- Value of one hexadecimal digit, `none` for a non-hex character. -/
def hexDigitVal (c : Char) : Option Nat :=
  if '0' ≤ c ∧ c ≤ '9' then some (c.toNat - 48)
  else if 'a' ≤ c ∧ c ≤ 'f' then some (c.toNat - 87)
  else if 'A' ≤ c ∧ c ≤ 'F' then some (c.toNat - 55)
  else none

/-- Decode hex pairs into bytes, stopping at the first invalid or
incomplete pair — the behavior of Node's `Buffer.from(s, 'hex')`. -/
def hexPairs : List Char → List Nat
  | c1 :: c2 :: rest =>
    match hexDigitVal c1, hexDigitVal c2 with
    | some h, some lo => (16 * h + lo) :: hexPairs rest
    | _, _ => []
  | _ => []

/-- Node `Buffer.from(s, 'hex')` as a byte list. -/
def hexDecode (s : String) : List Nat := hexPairs s.data

/-! ## JSON values (the shape of `req.body` and of parsed collaborator answers) -/

/-- Untyped JSON value; numbers are restricted to integers (no claim in this
development involves fractional numerics). -/
inductive JsonV where
  | null
  | bool (b : Bool)
  | num (n : Int)
  | str (s : String)
  | arr (elems : List JsonV)
  | obj (fields : List (String × JsonV))

/-- JS truthiness of a defined value. -/
def jsTruthyV : JsonV → Bool
  | .null => false
  | .bool b => b
  | .num n => if n = 0 then false else true
  | .str s => if s = "" then false else true
  | .arr _ => true
  | .obj _ => true

/-- JS truthiness of a possibly-`undefined` value. -/
def truthyOpt : Option JsonV → Bool
  | some v => jsTruthyV v
  | none => false

/-- JS truthiness of a possibly-`undefined` string (header values and the
module-level secret). -/
def jsTruthyS : Option String → Bool
  | some s => if s = "" then false else true
  | none => false

/-- JS `a || b` on possibly-undefined strings. -/
def jsOrS (a b : Option String) : Option String :=
  if jsTruthyS a then a else b

/-- Property lookup on an object's field list (first binding wins; the
modeled inputs carry no duplicate keys). -/
def lookupField : List (String × JsonV) → String → Option JsonV
  | [], _ => none
  | (k, v) :: rest, key => if k = key then some v else lookupField rest key

/-- JS property access `v[key]`: `undefined` on non-objects. -/
def getField : JsonV → String → Option JsonV
  | .obj fs, key => lookupField fs key
  | _, _ => none

/-- JS `Object.keys` (own enumerable keys; index keys for arrays and
strings, nothing for primitives). -/
def jsKeys : JsonV → List String
  | .obj fs => fs.map (fun p => p.1)
  | .arr xs => (List.range xs.length).map (fun n => toString n)
  | .str s => (List.range s.length).map (fun n => toString n)
  | _ => []

mutual

/-- JS template-literal stringification `${v}` (i.e. `String(v)`). -/
def jsToString : JsonV → String
  | .null => "null"
  | .bool b => if b then "true" else "false"
  | .num n => toString n
  | .str s => s
  | .arr xs => jsArrJoin xs
  | .obj _ => "[object Object]"

/-- JS `Array.prototype.toString` (comma-joined; `null` elements print
as the empty string). -/
def jsArrJoin : List JsonV → String
  | [] => ""
  | [.null] => ""
  | [v] => jsToString v
  | .null :: w :: rest => "," ++ jsArrJoin (w :: rest)
  | v :: w :: rest => jsToString v ++ "," ++ jsArrJoin (w :: rest)

end

/-! ## `JSON.stringify` (used by webhook.js line 45 to rebuild the "raw" body) -/

/-- JSON string escaping for the characters the modeled payloads can
contain. -/
def escapeJsonChar (c : Char) : List Char :=
  if c = '\"' then ['\\', '\"']
  else if c = '\\' then ['\\', '\\']
  else if c = '\n' then ['\\', 'n']
  else if c = '\t' then ['\\', 't']
  else if c = '\r' then ['\\', 'r']
  else [c]

/-- Quote and escape a JSON string literal. -/
def quoteJson (s : String) : String :=
  "\"" ++ String.mk (s.data.map escapeJsonChar).flatten ++ "\""

mutual

/-- `JSON.stringify` (no spacing, insertion-ordered keys). -/
def stringifyJson : JsonV → String
  | .null => "null"
  | .bool b => if b then "true" else "false"
  | .num n => toString n
  | .str s => quoteJson s
  | .arr xs => "[" ++ stringifyElems xs ++ "]"
  | .obj fs => "\x7b" ++ stringifyFields fs ++ "\x7d"

/-- Comma-joined stringification of object members. -/
def stringifyFields : List (String × JsonV) → String
  | [] => ""
  | [(k, v)] => quoteJson k ++ ":" ++ stringifyJson v
  | (k, v) :: p :: rest =>
    quoteJson k ++ ":" ++ stringifyJson v ++ "," ++ stringifyFields (p :: rest)

/-- Comma-joined stringification of array elements. -/
def stringifyElems : List JsonV → String
  | [] => ""
  | [v] => stringifyJson v
  | v :: w :: rest => stringifyJson v ++ "," ++ stringifyElems (w :: rest)

end

/-! ## `JSON.parse` (the platform body-parsing layer, needed to relate the
wire bytes to the parsed `req.body` the handlers receive) -/

/-- Opening brace character (written without a brace literal). -/
def lbrace : Char := Char.ofNat 123

/-- Closing brace character. -/
def rbrace : Char := Char.ofNat 125

/-- Parse a JSON string body after the opening quote; supports the escapes
produced by `escapeJsonChar`. -/
def parseStringBody : Nat → List Char → Option (List Char × List Char)
  | 0, _ => none
  | _, [] => none
  | Nat.succ fuel, c :: rest =>
    if c = '\"' then some ([], rest)
    else if c = '\\' then
      match rest with
      | e :: rest2 =>
        let ec : Option Char :=
          if e = 'n' then some '\n'
          else if e = 't' then some '\t'
          else if e = 'r' then some '\r'
          else if e = '\"' then some '\"'
          else if e = '\\' then some '\\'
          else none
        match ec with
        | some ch => (parseStringBody fuel rest2).map (fun p => (ch :: p.1, p.2))
        | none => none
      | [] => none
    else (parseStringBody fuel rest).map (fun p => (c :: p.1, p.2))

/-- Digit run to a natural number. -/
def digitsVal (ds : List Char) : Nat :=
  ds.foldl (fun a c => 10 * a + (c.toNat - 48)) 0

/-- Parse a JSON integer (optional minus, digit run). -/
def parseNumberFrom (cs : List Char) : Option (JsonV × List Char) :=
  match cs with
  | '-' :: r =>
    let ds := r.takeWhile Char.isDigit
    if ds = [] then none
    else some (.num (-(Int.ofNat (digitsVal ds))), r.dropWhile Char.isDigit)
  | _ =>
    let ds := cs.takeWhile Char.isDigit
    if ds = [] then none
    else some (.num (Int.ofNat (digitsVal ds)), cs.dropWhile Char.isDigit)

mutual

/-- Recursive-descent JSON parser (fueled; `parseJsonText` supplies ample
fuel).  Models the platform's `JSON.parse` on the document fragment the
repository's payloads use. -/
def parseVal : Nat → List Char → Option (JsonV × List Char)
  | 0, _ => none
  | Nat.succ fuel, cs0 =>
    match cs0.dropWhile wsCharB with
    | [] => none
    | '\"' :: rest => (parseStringBody fuel rest).map (fun p => (JsonV.str (String.mk p.1), p.2))
    | 'n' :: 'u' :: 'l' :: 'l' :: r => some (JsonV.null, r)
    | 't' :: 'r' :: 'u' :: 'e' :: r => some (JsonV.bool true, r)
    | 'f' :: 'a' :: 'l' :: 's' :: 'e' :: r => some (JsonV.bool false, r)
    | '[' :: rest =>
      (match rest.dropWhile wsCharB with
       | ']' :: r2 => some (JsonV.arr [], r2)
       | _ => (parseElems fuel rest).map (fun p => (JsonV.arr p.1, p.2)))
    | c :: rest =>
      if c = lbrace then
        match rest.dropWhile wsCharB with
        | d :: _ =>
          if d = rbrace then some (JsonV.obj [], (rest.dropWhile wsCharB).drop 1)
          else (parseMembers fuel rest).map (fun p => (JsonV.obj p.1, p.2))
        | [] => none
      else if c = '-' || c.isDigit then parseNumberFrom (c :: rest)
      else none

/-- Parse one or more comma-separated array elements up to `]`. -/
def parseElems : Nat → List Char → Option (List JsonV × List Char)
  | 0, _ => none
  | Nat.succ fuel, cs =>
    match parseVal fuel cs with
    | some (v, r1) =>
      (match r1.dropWhile wsCharB with
       | ',' :: r2 => (parseElems fuel r2).map (fun p => (v :: p.1, p.2))
       | ']' :: r2 => some ([v], r2)
       | _ => none)
    | none => none

/-- Parse one or more comma-separated `"key": value` members up to the
closing brace. -/
def parseMembers : Nat → List Char → Option (List (String × JsonV) × List Char)
  | 0, _ => none
  | Nat.succ fuel, cs =>
    match cs.dropWhile wsCharB with
    | '\"' :: rest =>
      (match parseStringBody fuel rest with
       | some (k, r1) =>
         (match r1.dropWhile wsCharB with
          | ':' :: r2 =>
            (match parseVal fuel r2 with
             | some (v, r3) =>
               (match r3.dropWhile wsCharB with
                | ',' :: r4 => (parseMembers fuel r4).map (fun p => ((String.mk k, v) :: p.1, p.2))
                | d :: r4 =>
                  if d = rbrace then some ([(String.mk k, v)], r4) else none
                | [] => none)
             | none => none)
          | _ => none)
       | none => none)
    | _ => none

end

/-- `JSON.parse` of a whole document: one value plus trailing whitespace. -/
def parseJsonText (s : String) : Option JsonV :=
  match parseVal (s.data.length + 8) s.data with
  | some (v, rest) => if rest.dropWhile wsCharB = [] then some v else none
  | none => none

/-! ## Inbound HTTP request -/

/-- An inbound HTTP request as the Vercel platform delivers it to a handler:
the method, the (lower-cased) header map, and the already-parsed JSON body. -/
structure HttpRequest where
  method : String
  headers : List (String × String)
  body : JsonV

/-- Node header lookup `req.headers[name]`. -/
def getHeader (hs : List (String × String)) (name : String) : Option String :=
  (hs.find? (fun p => p.1 == name)).map (fun p => p.2)

/-! ## webhook.js — signature verification -/

/-- Outcome of `verifyHmacSignature` (`src/api/webhook.js` lines 9–27):
it returns a boolean, or `crypto.timingSafeEqual` throws when the two
buffers have different lengths (`thrown`). -/
inductive VerifyResult where
  | ok
  | fail
  | thrown
deriving DecidableEq

/-- `verifyHmacSignature(payload, signature)` from `src/api/webhook.js`
lines 9–27.  `hmacHex secret payload` stands for Node's
`crypto.createHmac('sha256', secret).update(payload).digest('hex')`
(an external library call, passed in as a parameter); `secretOpt` is the
module-level `ELEVENLABS_WEBHOOK_SECRET`.  `crypto.timingSafeEqual` throws
when the hex-decoded buffers differ in length (`thrown`), otherwise
compares them. -/
def verifyHmacSignature (hmacHex : String → String → String)
    (secretOpt : Option String) (payload signature : String) : VerifyResult :=
  if jsTruthyS secretOpt = false then .fail
  else
    let expectedSignature := hmacHex (secretOpt.getD "") payload
    let sigToCompare := stripSha signature
    let a := hexDecode sigToCompare
    let e := hexDecode expectedSignature
    if a.length ≠ e.length then .thrown
    else if a = e then .ok else .fail

/-- The signature header, resolved as webhook.js lines 48–50 do:
`req.headers['elevenlabs-signature'] || req.headers['x-elevenlabs-signature']
|| req.headers['x-signature']` (JS `||`, so an empty-string header falls
through). -/
def resolvedSignature (hs : List (String × String)) : Option String :=
  jsOrS (jsOrS (getHeader hs "elevenlabs-signature")
               (getHeader hs "x-elevenlabs-signature"))
        (getHeader hs "x-signature")

/-- webhook.js line 45: `const rawBody = JSON.stringify(req.body);` — the
payload actually put under the HMAC is a *reserialization* of the parsed
body, not the raw wire bytes. -/
def rawBodyOf (body : JsonV) : String := stringifyJson body

/-! ## webhook.js / part_001 — transcript extraction -/

/-- The text payload of one `messages` element:
`m.content || m.text || ''` (webhook.js line 97, part_001 line 53). -/
def textOfMsg (m : JsonV) : String :=
  match getField m "text" with
  | some v => if jsTruthyV v then jsToString v else ""
  | none => ""

/-- One reconstructed transcript line:
`` `${m.role || 'unknown'}: ${m.content || m.text || ''}` ``
(webhook.js line 97, part_001 line 53). -/
def msgLine (m : JsonV) : String :=
  (match getField m "role" with
   | some v => if jsTruthyV v then jsToString v else "unknown"
   | none => "unknown") ++ ": " ++
  (match getField m "content" with
   | some v => if jsTruthyV v then jsToString v else textOfMsg m
   | none => textOfMsg m)

/-- `messages && Array.isArray(messages)`: the guard of the fourth shape. -/
def isArrayTruthy : Option JsonV → Bool
  | some (.arr _) => true
  | _ => false

/-- Elements of a `messages` array value. -/
def arrElems : Option JsonV → List JsonV
  | some (.arr xs) => xs
  | _ => []

/-- Transcript extraction, webhook.js lines 73–99 (identically part_001
lines 47–54): top-level `transcript`, then `data?.transcript`, then
`conversation?.transcript`, then reconstruction from a `messages` array;
each step fires only while the accumulator is still falsy. -/
def extractTranscript (body : JsonV) : Option JsonV :=
  let f1 := getField body "transcript"
  let dt := (getField body "data").bind (fun d => getField d "transcript")
  let f2 := if !truthyOpt f1 && truthyOpt dt then dt else f1
  let ct := (getField body "conversation").bind (fun c => getField c "transcript")
  let f3 := if !truthyOpt f2 && truthyOpt ct then ct else f2
  let ms := getField body "messages"
  let f4 :=
    if !truthyOpt f3 && isArrayTruthy ms then
      some (JsonV.str (String.intercalate "\n" ((arrElems ms).map msgLine)))
    else f3
  f4

/-! ## webhook.js — handler control flow -/

/-- Where a webhook request ends up, up to the point where the generation
collaborator would be invoked: `unauthorized` is the 401
`{error: 'Invalid signature'}` response, `acknowledged` the 200
`{received: true, message, payload_keys}` response, and `generate t` marks
that `generateWebsites(finalTranscript)` is invoked with transcript `t`
(everything after that call is driven by the collaborator's answer and is
modeled separately by the unwrap functions). -/
inductive WebhookOutcome where
  | optionsOk
  | methodNotAllowed
  | unauthorized
  | acknowledged (payloadKeys : List String)
  | generate (transcript : JsonV)

/-- webhook.js lines 101–114: acknowledge when no truthy transcript was
extracted, otherwise proceed to generation. -/
def postAuthOutcome (body : JsonV) : WebhookOutcome :=
  let ft := extractTranscript body
  if truthyOpt ft then .generate (ft.getD .null)
  else .acknowledged (jsKeys body)

/-- The webhook handler, `src/api/webhook.js` lines 29–137, up to the
generation call.  `hmacHex` stands for Node's HMAC-SHA-256 hex digest and
`secret` for `ELEVENLABS_WEBHOOK_SECRET`.  Note lines 61–64: an exception
from `verifyHmacSignature` is caught and the handler "continues anyway". -/
def webhookHandler (hmacHex : String → String → String)
    (secret : Option String) (req : HttpRequest) : WebhookOutcome :=
  if req.method = "OPTIONS" then .optionsOk
  else if req.method ≠ "POST" then .methodNotAllowed
  else
    let rawBody := rawBodyOf req.body
    let signature := resolvedSignature req.headers
    if jsTruthyS signature && jsTruthyS secret then
      match verifyHmacSignature hmacHex secret rawBody (signature.getD "") with
      | .fail => .unauthorized
      | .ok => postAuthOutcome req.body
      | .thrown => postAuthOutcome req.body
    else postAuthOutcome req.body

/-! ## generate.js — direct-submission handler -/

/-- Response of the direct-submission handler (`src/api/generate.js`).
`success` carries the inline payload of the 200 response: sessionId,
`websites.businessInfo`, and the three documents under `websites`. -/
inductive GenResponse where
  | optionsOk
  | methodNotAllowed
  | badRequest (error : String)
  | serverError (error details : String)
  | success (sessionId : String) (businessInfo modern classic warm : Option JsonV)

/-- Result of one run of the direct-submission handler: the HTTP response,
whether the generation collaborator was invoked, and the outcome of the KV
write when one was attempted. -/
structure GenResult where
  resp : GenResponse
  generationCalled : Bool
  kvOutcome : Option (Except String Unit)

/-- The direct-submission handler, `src/api/generate.js` lines 6–50.
`gen` is the external generation collaborator
(`generateWebsitesFromTranscript`): it maps the transcript to the parsed
websites record or to the error a failed call/parse throws.  `kvSet` is the
outcome of `kv.set` — attempted inside a try/catch whose catch only logs
(lines 28–32).  `sessionId` is the time/randomness-based identifier of
line 22, supplied by the environment. -/
def generateHandler (gen : JsonV → Except String JsonV)
    (kvSet : Except String Unit) (sessionId : String) (req : HttpRequest) :
    GenResult :=
  if req.method = "OPTIONS" then ⟨.optionsOk, false, none⟩
  else if req.method ≠ "POST" then ⟨.methodNotAllowed, false, none⟩
  else
    let transcript := getField req.body "transcript"
    if !truthyOpt transcript then
      ⟨.badRequest "No transcript provided", false, none⟩
    else
      match gen (transcript.getD .null) with
      | .error e => ⟨.serverError "Failed to generate websites" e, true, none⟩
      | .ok websites =>
        ⟨.success sessionId (getField websites "businessInfo")
           (getField websites "modern") (getField websites "classic")
           (getField websites "warm"),
         true, some kvSet⟩

/-! ## part_001 — Supabase webhook variant -/

/-- Response of the part_001 handler. `acknowledged` is its 200
`{received: true, message: 'No transcript found', payload_keys}`;
`success` its 200 `{success, sessionId, message, businessInfo, previewUrl}`;
`serverError` its catch-all 500 `{error: 'Failed to process', details}`. -/
inductive Part001Response where
  | optionsOk
  | methodNotAllowed
  | acknowledged (payloadKeys : List String)
  | success (sessionId : JsonV) (businessInfo : Option JsonV)
  | serverError (error details : String)

/-- `conversation_id || fallback` (part_001 line 63). -/
def sessionIdOf (body : JsonV) (fallback : String) : JsonV :=
  match getField body "conversation_id" with
  | some v => if jsTruthyV v then v else .str fallback
  | none => .str fallback

/-- The part_001 webhook handler (`src/unnamed/part_001` lines 36–88).
`gen` is `generateWebsites`; `save` is the outcome of `saveToSupabase`,
whose failure *throws* (lines 29–32) — and the call on line 65 is awaited
with no inner try/catch, so a save failure lands in the outer catch and
becomes the 500 response. -/
def part001Handler (gen : JsonV → Except String JsonV)
    (save : Except String Unit) (fallbackSid : String) (req : HttpRequest) :
    Part001Response :=
  if req.method = "OPTIONS" then .optionsOk
  else if req.method ≠ "POST" then .methodNotAllowed
  else
    let ft := extractTranscript req.body
    if !truthyOpt ft then .acknowledged (jsKeys req.body)
    else
      match gen (ft.getD .null) with
      | .error e => .serverError "Failed to process" e
      | .ok ws =>
        match save with
        | .error e => .serverError "Failed to process" e
        | .ok _ => .success (sessionIdOf req.body fallbackSid) (getField ws "businessInfo")

/-! ## Collaborator-answer unwrapping (the fenced-code-block step) -/

/-- The unwrap step of `generateWebsitesFromTranscript`
(`src/api/generate.js` lines 148–156): split on a language-tagged fence if
present, else on a bare fence, else keep the text; then `trim` before
`JSON.parse`. -/
def unwrapGenerate (content : String) : String :=
  let cl := content.data
  let jsonStr : List Char :=
    if jsIncludes content "```json" then
      headSegment "```".data ((secondSegment "```json".data cl).getD [])
    else if jsIncludes content "```" then
      headSegment "```".data ((secondSegment "```".data cl).getD [])
    else cl
  jsTrimS (String.mk jsonStr)

/-- The unwrap step of webhook.js's `generateWebsites` (lines 201–209):
same splitting, but no final `trim`. -/
def unwrapWebhook (content : String) : String :=
  let cl := content.data
  let jsonStr : List Char :=
    if jsIncludes content "```json" then
      headSegment "```".data ((secondSegment "```json".data cl).getD [])
    else if jsIncludes content "```" then
      headSegment "```".data ((secondSegment "```".data cl).getD [])
    else cl
  String.mk jsonStr

/-- The unwrap step of part_001's `generateWebsites` (lines 190–197):
trim, slice a leading ```` ```json ````/```` ``` ```` and a trailing
```` ``` ```` off the ends, trim again. -/
def unwrapPart001 (content : String) : String :=
  let c0 := jsTrimL content.data
  let c1 := if "```json".data.isPrefixOf c0 then c0.drop 7 else c0
  let c2 := if "```".data.isPrefixOf c1 then c1.drop 3 else c1
  let c3 := if "```".data.isSuffixOf c2 then c2.take (c2.length - 3) else c2
  String.mk (jsTrimL c3)

/-- A language-tagged fenced wrapping of an answer text. -/
def tagWrap (t : String) : String :=
  String.mk ("```json\n".data ++ t.data ++ "\n```".data)

/-- A bare fenced wrapping of an answer text. -/
def fenceWrap (t : String) : String :=
  String.mk ("```\n".data ++ t.data ++ "\n```".data)

/-! ## Spec-side definitions (used only to state claims against the code) -/

/-- One transcript line as claim C4 words it: role interpolated verbatim,
defaulting to "unknown" only when *absent*; text taken from `content` when
present, else from `text`, defaulting to the empty string only when both
are absent. -/
def c4SpecLine (role content text : Option String) : String :=
  (match role with
   | some r => r
   | none => "unknown") ++ ": " ++
  (match content with
   | some c => c
   | none =>
     match text with
     | some t => t
     | none => "")

/-- One transcript line as the amended claim C4 words it: role defaults to
"unknown" when absent *or empty*, and the text is the first non-empty of
`content` then `text`, defaulting to the empty string. -/
def c4AmendedLine (role content text : Option String) : String :=
  (match role with
   | some r => if r = "" then "unknown" else r
   | none => "unknown") ++ ": " ++
  (match content with
   | some c =>
     if c = "" then
       (match text with
        | some t => t
        | none => "")
     else c
   | none =>
     match text with
     | some t => t
     | none => "")

/-- Build a `messages` element from optional string-valued `role`,
`content`, `text` fields (input-construction helper for the C4 theorems). -/
def mkMsg (role content text : Option String) : JsonV :=
  .obj ((match role with | some r => [("role", JsonV.str r)] | none => []) ++
        (match content with | some c => [("content", JsonV.str c)] | none => []) ++
        (match text with | some t => [("text", JsonV.str t)] | none => []))

/-- A webhook body whose only transcript-bearing field is a `messages`
array built from string-valued fields. -/
def mkMessagesBody (ms : List (Option String × Option String × Option String)) : JsonV :=
  .obj [("messages", JsonV.arr (ms.map (fun p => mkMsg p.1 p.2.1 p.2.2)))]

/-- The body with one top-level key deleted (to state that a present-but-
falsy field is handled identically to an absent one). -/
def removeKey : JsonV → String → JsonV
  | .obj fs, k => .obj (fs.filter (fun p => p.1 != k))
  | v, _ => v

/-- 64 zero hex characters: a stand-in digest value for witnesses. -/
def zeros64 : String := String.mk (List.replicate 64 '0')

/-- 64 `f` hex characters: a hex string of digest length distinct from
`zeros64`. -/
def effs64 : String := String.mk (List.replicate 64 'f')

/-! ## List/string lemmas -/

theorem isPrefixOf_self_append (x y : List Char) : x.isPrefixOf (x ++ y) = true := by
  induction x with
  | nil => simp [List.isPrefixOf]
  | cons c cs ih => simp [List.isPrefixOf, ih]

theorem isPrefixOf_cons_of_beq_false {p0 c : Char} (pr cs : List Char)
    (h : (p0 == c) = false) : ((p0 :: pr).isPrefixOf (c :: cs)) = false := by
  simp [List.isPrefixOf]
  intro hc
  simp [hc] at h

theorem isPrefixOf_false_of_head_notMem {c : Char} (cs l : List Char)
    (h : c ∉ l) : ((c :: cs).isPrefixOf l) = false := by
  cases l with
  | nil => rfl
  | cons a as =>
    have hca : (c == a) = false := by
      simp only [beq_eq_false_iff_ne, ne_eq]
      intro he
      exact h (by simp [he])
    exact isPrefixOf_cons_of_beq_false _ _ hca

theorem isSuffixOf_append_self (y z : List Char) : z.isSuffixOf (y ++ z) = true := by
  simp [List.isSuffixOf, List.reverse_append, isPrefixOf_self_append]

theorem take_len_append (u v : List Char) : (u ++ v).take u.length = u := by
  induction u with
  | nil => simp
  | cons c cs ih => simp [ih]

theorem splitFirst_nil_of_ne {pat : List Char} (h : pat ≠ []) :
    splitFirst pat [] = none := by
  simp [splitFirst, h]

theorem splitFirst_of_isPrefixOf {pat s : List Char} (hp : pat ≠ [])
    (h : pat.isPrefixOf s = true) :
    splitFirst pat s = some ([], s.drop pat.length) := by
  cases s with
  | nil =>
    cases pat with
    | nil => exact absurd rfl hp
    | cons p pr => simp [List.isPrefixOf] at h
  | cons c cs => simp [splitFirst, h]

theorem splitFirst_cons_neg {pat : List Char} {c : Char} {cs : List Char}
    (h : pat.isPrefixOf (c :: cs) = false) :
    splitFirst pat (c :: cs) =
      (splitFirst pat cs).map (fun x => (c :: x.1, x.2)) := by
  simp only [splitFirst, h]
  cases hs : splitFirst pat cs with
  | none => simp
  | some pr => cases pr with | mk a b => simp

theorem splitFirst_shift {p0 : Char} {pr : List Char} (u v : List Char)
    (hu : p0 ∉ u) :
    splitFirst (p0 :: pr) (u ++ v) =
      (splitFirst (p0 :: pr) v).map (fun x => (u ++ x.1, x.2)) := by
  induction u with
  | nil =>
    cases hs : splitFirst (p0 :: pr) v with
    | none => simp [hs]
    | some pq => cases pq with | mk a b => simp [hs]
  | cons c cs ih =>
    have hc : (p0 == c) = false := by
      simp only [beq_eq_false_iff_ne, ne_eq]
      intro he
      exact hu (by simp [he])
    have hne := @isPrefixOf_cons_of_beq_false p0 c pr (cs ++ v) hc
    rw [List.cons_append, splitFirst_cons_neg hne,
        ih (fun hm => hu (List.mem_cons_of_mem _ hm))]
    cases hs : splitFirst (p0 :: pr) v with
    | none => simp
    | some pq => cases pq with | mk a b => simp

theorem splitFirst_none_of_head_notMem {p0 : Char} (pr s : List Char)
    (h : p0 ∉ s) : splitFirst (p0 :: pr) s = none := by
  have h1 := @splitFirst_shift p0 pr s [] h
  rw [List.append_nil] at h1
  rw [h1, splitFirst_nil_of_ne (by simp)]
  rfl

theorem dropWhile_append_pos {p : Char → Bool} (l m : List Char)
    (h : l.dropWhile p = []) : (l ++ m).dropWhile p = m.dropWhile p := by
  induction l with
  | nil => simp
  | cons c cs ih =>
    by_cases hc : p c
    · simp only [List.dropWhile_cons, hc, if_true] at h
      simp [List.dropWhile_cons, hc, ih h]
    · simp [List.dropWhile_cons, hc] at h

theorem dropWhile_append_neg {p : Char → Bool} (l m : List Char)
    (h : l.dropWhile p ≠ []) : (l ++ m).dropWhile p = l.dropWhile p ++ m := by
  induction l with
  | nil => exact absurd rfl h
  | cons c cs ih =>
    by_cases hc : p c
    · simp only [List.dropWhile_cons, hc, if_true] at h
      simp [List.dropWhile_cons, hc, ih h]
    · simp [List.dropWhile_cons, hc]

theorem dropWhile_idem {p : Char → Bool} (l : List Char) :
    (l.dropWhile p).dropWhile p = l.dropWhile p := by
  induction l with
  | nil => rfl
  | cons c cs ih =>
    by_cases hc : p c
    · simp [List.dropWhile_cons, hc, ih]
    · simp [List.dropWhile_cons, hc]

theorem mem_of_mem_dropWhile {p : Char → Bool} {a : Char} {l : List Char}
    (h : a ∈ l.dropWhile p) : a ∈ l := by
  induction l with
  | nil => simp at h
  | cons c cs ih =>
    by_cases hc : p c
    · simp only [List.dropWhile_cons, hc, if_true] at h
      exact List.mem_cons_of_mem _ (ih h)
    · simpa [List.dropWhile_cons, hc] using h

theorem mem_of_mem_trimLeft {a : Char} {l : List Char}
    (h : a ∈ trimLeftL l) : a ∈ l := mem_of_mem_dropWhile h

theorem mem_of_mem_trimRight {a : Char} {l : List Char}
    (h : a ∈ trimRightL l) : a ∈ l := by
  unfold trimRightL at h
  rw [List.mem_reverse] at h
  have := mem_of_mem_dropWhile h
  rwa [List.mem_reverse] at this

theorem mem_of_mem_jsTrim {a : Char} {l : List Char}
    (h : a ∈ jsTrimL l) : a ∈ l :=
  mem_of_mem_trimLeft (mem_of_mem_trimRight h)

theorem trimLeft_cons_of_ws {c : Char} (l : List Char) (h : wsCharB c = true) :
    trimLeftL (c :: l) = trimLeftL l := by
  simp [trimLeftL, List.dropWhile_cons, h]

theorem trimLeft_cons_of_not_ws {c : Char} (l : List Char) (h : wsCharB c = false) :
    trimLeftL (c :: l) = c :: l := by
  simp [trimLeftL, List.dropWhile_cons, h]

theorem trimRight_append_ws {c : Char} (l : List Char) (h : wsCharB c = true) :
    trimRightL (l ++ [c]) = trimRightL l := by
  simp [trimRightL, List.reverse_append, List.dropWhile_cons, h]

theorem jsTrim_nl_wrap (l : List Char) :
    jsTrimL ('\n' :: (l ++ ['\n'])) = jsTrimL l := by
  unfold jsTrimL
  rw [trimLeft_cons_of_ws _ (by decide)]
  by_cases h : trimLeftL l = []
  · unfold trimLeftL at h ⊢
    rw [dropWhile_append_pos _ _ h, h,
        show List.dropWhile wsCharB ['\n'] = [] from rfl]
  · unfold trimLeftL at h ⊢
    rw [dropWhile_append_neg _ _ h, trimRight_append_ws _ (by decide)]

theorem jsTrim_of_ends_not_ws {c d : Char} (l : List Char)
    (hc : wsCharB c = false) (hd : wsCharB d = false) :
    jsTrimL (c :: (l ++ [d])) = c :: (l ++ [d]) := by
  unfold jsTrimL
  rw [trimLeft_cons_of_not_ws _ hc]
  unfold trimRightL
  rw [show (c :: (l ++ [d])).reverse = d :: (l.reverse ++ [c]) by simp,
      List.dropWhile_cons]
  simp [hd]

theorem trimRight_nil : trimRightL [] = [] := rfl

theorem trimRight_cons_shape (c : Char) (t : List Char) (hc : wsCharB c = false) :
    trimRightL (c :: t) = [] ∨ ∃ y, trimRightL (c :: t) = c :: y := by
  unfold trimRightL
  rw [show (c :: t).reverse = t.reverse ++ [c] by simp]
  by_cases h : t.reverse.dropWhile wsCharB = []
  · rw [dropWhile_append_pos _ _ h]
    simp [List.dropWhile_cons, hc]
  · rw [dropWhile_append_neg _ _ h]
    right
    exact ⟨(t.reverse.dropWhile wsCharB).reverse, by simp⟩

theorem trimLeft_shape (l : List Char) :
    trimLeftL l = [] ∨ ∃ c t, trimLeftL l = c :: t ∧ wsCharB c = false := by
  induction l with
  | nil => left; rfl
  | cons c cs ih =>
    by_cases hc : wsCharB c
    · rw [trimLeft_cons_of_ws _ hc]; exact ih
    · right
      exact ⟨c, cs, trimLeft_cons_of_not_ws _ (by simpa using hc), by simpa using hc⟩

theorem trimRight_idem (l : List Char) :
    trimRightL (trimRightL l) = trimRightL l := by
  unfold trimRightL
  rw [List.reverse_reverse, dropWhile_idem]

theorem notMem_nl_wrap {t : List Char} (h : '`' ∉ t) :
    '`' ∉ '\n' :: (t ++ ['\n']) := by
  simp [List.mem_cons, List.mem_append, h]

theorem sf_ticks_after (u : List Char) (hu : '`' ∉ u) :
    splitFirst ['`', '`', '`'] (u ++ ['`', '`', '`']) = some (u, []) := by
  rw [splitFirst_shift u _ hu,
      show splitFirst ['`', '`', '`'] ['`', '`', '`'] = some ([], []) from by decide]
  simp

theorem sf_json_none_after (u : List Char) (hu : '`' ∉ u) :
    splitFirst ['`', '`', '`', 'j', 's', 'o', 'n'] (u ++ ['`', '`', '`']) = none := by
  rw [splitFirst_shift u _ hu,
      show splitFirst ['`', '`', '`', 'j', 's', 'o', 'n'] ['`', '`', '`'] = none from by decide]
  rfl

theorem headSegment_ticks_after (u : List Char) (hu : '`' ∉ u) :
    headSegment ['`', '`', '`'] (u ++ ['`', '`', '`']) = u := by
  unfold headSegment
  rw [sf_ticks_after u hu]

theorem sf_json_none_of_notMem (s : List Char) (h : '`' ∉ s) :
    splitFirst ['`', '`', '`', 'j', 's', 'o', 'n'] s = none :=
  splitFirst_none_of_head_notMem _ s h

theorem sf_ticks_none_of_notMem (s : List Char) (h : '`' ∉ s) :
    splitFirst ['`', '`', '`'] s = none :=
  splitFirst_none_of_head_notMem _ s h

theorem jsTrim_idem (l : List Char) : jsTrimL (jsTrimL l) = jsTrimL l := by
  rcases trimLeft_shape l with h | ⟨c, t, h, hc⟩
  · unfold jsTrimL
    rw [h, trimRight_nil]
    rfl
  · unfold jsTrimL
    rw [h]
    rcases trimRight_cons_shape c t hc with h2 | ⟨y, h2⟩
    · rw [h2]; rfl
    · rw [h2]
      have h3 : trimLeftL (c :: y) = c :: y := trimLeft_cons_of_not_ws _ hc
      rw [h3, ← h2, trimRight_idem]

/-! ## Unwrap-routine evaluation lemmas -/

theorem tagWrap_data (t : String) :
    (tagWrap t).data =
      ['`', '`', '`', 'j', 's', 'o', 'n'] ++
        (('\n' :: (t.data ++ ['\n'])) ++ ['`', '`', '`']) := by
  show (['`', '`', '`', 'j', 's', 'o', 'n', '\n'] ++ t.data) ++ ['\n', '`', '`', '`'] = _
  simp [List.append_assoc]

theorem fenceWrap_data (t : String) :
    (fenceWrap t).data =
      ['`', '`', '`'] ++ (('\n' :: (t.data ++ ['\n'])) ++ ['`', '`', '`']) := by
  show (['`', '`', '`', '\n'] ++ t.data) ++ ['\n', '`', '`', '`'] = _
  simp [List.append_assoc]

theorem sf_json_tagWrap (t : String) :
    splitFirst ['`', '`', '`', 'j', 's', 'o', 'n'] (tagWrap t).data =
      some ([], ('\n' :: (t.data ++ ['\n'])) ++ ['`', '`', '`']) := by
  rw [tagWrap_data,
      splitFirst_of_isPrefixOf (by decide) (isPrefixOf_self_append _ _),
      List.drop_left]

theorem sf_json_fenceWrap (t : String) (h : '`' ∉ t.data) :
    splitFirst ['`', '`', '`', 'j', 's', 'o', 'n'] (fenceWrap t).data = none := by
  have hu : '`' ∉ '\n' :: (t.data ++ ['\n']) := notMem_nl_wrap h
  rw [fenceWrap_data]
  show splitFirst ['`', '`', '`', 'j', 's', 'o', 'n']
    ('`' :: ('`' :: ('`' :: (('\n' :: (t.data ++ ['\n'])) ++ ['`', '`', '`'])))) = none
  have hjn : (('j' : Char) == '\n') = false := rfl
  have hbn : (('`' : Char) == '\n') = false := rfl
  have k1 : (['`', '`', '`', 'j', 's', 'o', 'n'].isPrefixOf
      ('`' :: ('`' :: ('`' :: (('\n' :: (t.data ++ ['\n'])) ++ ['`', '`', '`']))))) = false := by
    simp [List.isPrefixOf, List.cons_append, hjn]
  have k2 : (['`', '`', '`', 'j', 's', 'o', 'n'].isPrefixOf
      ('`' :: ('`' :: (('\n' :: (t.data ++ ['\n'])) ++ ['`', '`', '`'])))) = false := by
    simp [List.isPrefixOf, List.cons_append, hbn]
  have k3 : (['`', '`', '`', 'j', 's', 'o', 'n'].isPrefixOf
      ('`' :: (('\n' :: (t.data ++ ['\n'])) ++ ['`', '`', '`']))) = false := by
    simp [List.isPrefixOf, List.cons_append, hbn]
  rw [splitFirst_cons_neg k1, splitFirst_cons_neg k2, splitFirst_cons_neg k3,
      sf_json_none_after _ hu]
  rfl

theorem sf_ticks_fenceWrap (t : String) :
    splitFirst ['`', '`', '`'] (fenceWrap t).data =
      some ([], ('\n' :: (t.data ++ ['\n'])) ++ ['`', '`', '`']) := by
  rw [fenceWrap_data,
      splitFirst_of_isPrefixOf (by decide) (isPrefixOf_self_append _ _),
      List.drop_left]

theorem headSegment_json_after (t : String) (h : '`' ∉ t.data) :
    headSegment ['`', '`', '`', 'j', 's', 'o', 'n']
        (('\n' :: (t.data ++ ['\n'])) ++ ['`', '`', '`']) =
      ('\n' :: (t.data ++ ['\n'])) ++ ['`', '`', '`'] := by
  unfold headSegment
  rw [sf_json_none_after _ (notMem_nl_wrap h)]

theorem unwrapGenerate_bare (t : String) (h : '`' ∉ t.data) :
    unwrapGenerate t = jsTrimS t := by
  unfold unwrapGenerate jsIncludes
  simp only [show ("```json".data : List Char) = ['`', '`', '`', 'j', 's', 'o', 'n'] from rfl,
             show ("```".data : List Char) = ['`', '`', '`'] from rfl]
  rw [sf_json_none_of_notMem _ h, sf_ticks_none_of_notMem _ h]
  rfl

theorem unwrapWebhook_bare (t : String) (h : '`' ∉ t.data) :
    unwrapWebhook t = t := by
  unfold unwrapWebhook jsIncludes
  simp only [show ("```json".data : List Char) = ['`', '`', '`', 'j', 's', 'o', 'n'] from rfl,
             show ("```".data : List Char) = ['`', '`', '`'] from rfl]
  rw [sf_json_none_of_notMem _ h, sf_ticks_none_of_notMem _ h]
  rfl

theorem unwrapGenerate_tagWrap (t : String) (h : '`' ∉ t.data) :
    unwrapGenerate (tagWrap t) = jsTrimS t := by
  unfold unwrapGenerate jsIncludes secondSegment
  simp only [show ("```json".data : List Char) = ['`', '`', '`', 'j', 's', 'o', 'n'] from rfl,
             show ("```".data : List Char) = ['`', '`', '`'] from rfl]
  rw [sf_json_tagWrap]
  simp only [Option.isSome_some, if_true, Option.map_some', Option.getD_some]
  rw [headSegment_json_after t h, headSegment_ticks_after _ (notMem_nl_wrap h)]
  show String.mk (jsTrimL ('\n' :: (t.data ++ ['\n']))) = _
  rw [jsTrim_nl_wrap]
  rfl

theorem unwrapWebhook_tagWrap (t : String) (h : '`' ∉ t.data) :
    unwrapWebhook (tagWrap t) = String.mk ('\n' :: (t.data ++ ['\n'])) := by
  unfold unwrapWebhook jsIncludes secondSegment
  simp only [show ("```json".data : List Char) = ['`', '`', '`', 'j', 's', 'o', 'n'] from rfl,
             show ("```".data : List Char) = ['`', '`', '`'] from rfl]
  rw [sf_json_tagWrap]
  simp only [Option.isSome_some, if_true, Option.map_some', Option.getD_some]
  rw [headSegment_json_after t h, headSegment_ticks_after _ (notMem_nl_wrap h)]

theorem secondSegment_ticks_fenceWrap (t : String) (h : '`' ∉ t.data) :
    secondSegment ['`', '`', '`'] (fenceWrap t).data =
      some ('\n' :: (t.data ++ ['\n'])) := by
  unfold secondSegment
  rw [sf_ticks_fenceWrap]
  simp only [Option.map_some']
  rw [headSegment_ticks_after _ (notMem_nl_wrap h)]

theorem unwrapGenerate_fenceWrap (t : String) (h : '`' ∉ t.data) :
    unwrapGenerate (fenceWrap t) = jsTrimS t := by
  have hu : '`' ∉ '\n' :: (t.data ++ ['\n']) := notMem_nl_wrap h
  unfold unwrapGenerate jsIncludes
  simp only [show ("```json".data : List Char) = ['`', '`', '`', 'j', 's', 'o', 'n'] from rfl,
             show ("```".data : List Char) = ['`', '`', '`'] from rfl]
  rw [sf_json_fenceWrap t h, sf_ticks_fenceWrap, secondSegment_ticks_fenceWrap t h]
  simp only [Option.isSome_none, Option.isSome_some, Bool.false_eq_true, if_false, if_true,
    Option.getD_some]
  unfold headSegment
  rw [sf_ticks_none_of_notMem _ hu]
  show String.mk (jsTrimL ('\n' :: (t.data ++ ['\n']))) = _
  rw [jsTrim_nl_wrap]
  rfl

theorem unwrapWebhook_fenceWrap (t : String) (h : '`' ∉ t.data) :
    unwrapWebhook (fenceWrap t) = String.mk ('\n' :: (t.data ++ ['\n'])) := by
  have hu : '`' ∉ '\n' :: (t.data ++ ['\n']) := notMem_nl_wrap h
  unfold unwrapWebhook jsIncludes
  simp only [show ("```json".data : List Char) = ['`', '`', '`', 'j', 's', 'o', 'n'] from rfl,
             show ("```".data : List Char) = ['`', '`', '`'] from rfl]
  rw [sf_json_fenceWrap t h, sf_ticks_fenceWrap, secondSegment_ticks_fenceWrap t h]
  simp only [Option.isSome_none, Option.isSome_some, Bool.false_eq_true, if_false, if_true,
    Option.getD_some]
  unfold headSegment
  rw [sf_ticks_none_of_notMem _ hu]

theorem ticks_isSuffixOf_false_of_notMem (l : List Char) (h : '`' ∉ l) :
    ((['`', '`', '`'] : List Char).isSuffixOf l) = false := by
  show ((['`', '`', '`'] : List Char).reverse.isPrefixOf l.reverse) = false
  rw [show (['`', '`', '`'] : List Char).reverse = ['`', '`', '`'] from rfl]
  exact isPrefixOf_false_of_head_notMem _ _ (fun hm => h (List.mem_reverse.mp hm))

theorem tagWrap_data_shape (t : String) :
    (tagWrap t).data =
      '`' :: ((['`', '`', 'j', 's', 'o', 'n', '\n'] ++ (t.data ++ ['\n', '`', '`'])) ++ ['`']) := by
  rw [tagWrap_data]
  simp [List.append_assoc]

theorem fenceWrap_data_shape (t : String) :
    (fenceWrap t).data =
      '`' :: ((['`', '`', '\n'] ++ (t.data ++ ['\n', '`', '`'])) ++ ['`']) := by
  rw [fenceWrap_data]
  simp [List.append_assoc]

theorem jsTrimL_tagWrap (t : String) :
    jsTrimL (tagWrap t).data = (tagWrap t).data := by
  rw [tagWrap_data_shape]
  exact jsTrim_of_ends_not_ws _ rfl rfl

theorem jsTrimL_fenceWrap (t : String) :
    jsTrimL (fenceWrap t).data = (fenceWrap t).data := by
  rw [fenceWrap_data_shape]
  exact jsTrim_of_ends_not_ws _ rfl rfl

theorem unwrapPart001_bare (t : String) (h : '`' ∉ t.data) :
    unwrapPart001 t = jsTrimS t := by
  have hc0 : '`' ∉ jsTrimL t.data := fun hm => h (mem_of_mem_jsTrim hm)
  unfold unwrapPart001
  simp only [show ("```json".data : List Char) = ['`', '`', '`', 'j', 's', 'o', 'n'] from rfl,
             show ("```".data : List Char) = ['`', '`', '`'] from rfl]
  rw [isPrefixOf_false_of_head_notMem ['`', '`', 'j', 's', 'o', 'n'] _ hc0]
  simp only [Bool.false_eq_true, if_false]
  rw [isPrefixOf_false_of_head_notMem ['`', '`'] _ hc0]
  simp only [Bool.false_eq_true, if_false]
  rw [ticks_isSuffixOf_false_of_notMem _ hc0]
  simp only [Bool.false_eq_true, if_false]
  show String.mk (jsTrimL (jsTrimL t.data)) = _
  rw [jsTrim_idem]
  rfl

theorem unwrapPart001_tagWrap (t : String) :
    unwrapPart001 (tagWrap t) = jsTrimS t := by
  unfold unwrapPart001
  simp only [show ("```json".data : List Char) = ['`', '`', '`', 'j', 's', 'o', 'n'] from rfl,
             show ("```".data : List Char) = ['`', '`', '`'] from rfl]
  rw [jsTrimL_tagWrap, tagWrap_data, isPrefixOf_self_append]
  simp only [if_true]
  have hdrop : ((['`', '`', '`', 'j', 's', 'o', 'n'] : List Char) ++
      (('\n' :: (t.data ++ ['\n'])) ++ ['`', '`', '`'])).drop 7 =
      (('\n' :: (t.data ++ ['\n'])) ++ ['`', '`', '`']) := by
    simp
  rw [hdrop]
  have hc2 : ((['`', '`', '`'] : List Char).isPrefixOf
      (('\n' :: (t.data ++ ['\n'])) ++ ['`', '`', '`'])) = false := by
    rw [List.cons_append]
    exact isPrefixOf_cons_of_beq_false _ _ rfl
  rw [hc2]
  simp only [Bool.false_eq_true, if_false]
  rw [isSuffixOf_append_self]
  simp only [if_true]
  have hlen : ((('\n' :: (t.data ++ ['\n'])) ++ ['`', '`', '`']).length - 3) =
      ('\n' :: (t.data ++ ['\n'])).length := by
    simp [List.length_append]
  rw [hlen, take_len_append]
  show String.mk (jsTrimL ('\n' :: (t.data ++ ['\n']))) = _
  rw [jsTrim_nl_wrap]
  rfl

theorem unwrapPart001_fenceWrap (t : String) :
    unwrapPart001 (fenceWrap t) = jsTrimS t := by
  unfold unwrapPart001
  simp only [show ("```json".data : List Char) = ['`', '`', '`', 'j', 's', 'o', 'n'] from rfl,
             show ("```".data : List Char) = ['`', '`', '`'] from rfl]
  rw [jsTrimL_fenceWrap, fenceWrap_data]
  have hc1 : ((['`', '`', '`', 'j', 's', 'o', 'n'] : List Char).isPrefixOf
      (['`', '`', '`'] ++ (('\n' :: (t.data ++ ['\n'])) ++ ['`', '`', '`']))) = false := by
    show ((['`', '`', '`', 'j', 's', 'o', 'n'] : List Char).isPrefixOf
      ('`' :: ('`' :: ('`' :: (('\n' :: (t.data ++ ['\n'])) ++ ['`', '`', '`']))))) = false
    simp [List.isPrefixOf, List.cons_append, show (('j' : Char) == '\n') = false from rfl]
  rw [hc1]
  simp only [Bool.false_eq_true, if_false]
  rw [isPrefixOf_self_append]
  simp only [if_true]
  have hdrop : ((['`', '`', '`'] : List Char) ++
      (('\n' :: (t.data ++ ['\n'])) ++ ['`', '`', '`'])).drop 3 =
      (('\n' :: (t.data ++ ['\n'])) ++ ['`', '`', '`']) := by
    simp
  rw [hdrop]
  rw [isSuffixOf_append_self]
  simp only [if_true]
  have hlen : ((('\n' :: (t.data ++ ['\n'])) ++ ['`', '`', '`']).length - 3) =
      ('\n' :: (t.data ++ ['\n'])).length := by
    simp [List.length_append]
  rw [hlen, take_len_append]
  show String.mk (jsTrimL ('\n' :: (t.data ++ ['\n']))) = _
  rw [jsTrim_nl_wrap]
  rfl

/-! ## Handler-level helper lemmas -/

theorem webhookHandler_post_form (hmacHex : String → String → String)
    (secret : Option String) (req : HttpRequest) (hm : req.method = "POST") :
    webhookHandler hmacHex secret req =
      (if jsTruthyS (resolvedSignature req.headers) && jsTruthyS secret then
        match verifyHmacSignature hmacHex secret (rawBodyOf req.body)
            ((resolvedSignature req.headers).getD "") with
        | .fail => .unauthorized
        | .ok => postAuthOutcome req.body
        | .thrown => postAuthOutcome req.body
      else postAuthOutcome req.body) := by
  unfold webhookHandler
  rw [hm, if_neg (by decide), if_neg (by decide)]

theorem postAuth_ne_unauthorized (body : JsonV) :
    postAuthOutcome body ≠ .unauthorized := by
  unfold postAuthOutcome
  by_cases h : truthyOpt (extractTranscript body) <;> simp [h]

theorem verify_fail_of_mismatch (hmacHex : String → String → String)
    (sec payload s : String) (hsec : sec ≠ "")
    (hlen : (hexDecode (stripSha s)).length = (hexDecode (hmacHex sec payload)).length)
    (hne : hexDecode (stripSha s) ≠ hexDecode (hmacHex sec payload)) :
    verifyHmacSignature hmacHex (some sec) payload s = .fail := by
  unfold verifyHmacSignature
  simp [jsTruthyS, hsec, hlen, hne]

theorem verify_thrown_of_length (hmacHex : String → String → String)
    (sec payload s : String) (hsec : sec ≠ "")
    (hlen : (hexDecode (stripSha s)).length ≠ (hexDecode (hmacHex sec payload)).length) :
    verifyHmacSignature hmacHex (some sec) payload s = .thrown := by
  unfold verifyHmacSignature
  simp [jsTruthyS, hsec, hlen]

theorem msgLine_mkMsg (r c tx : Option String) :
    msgLine (mkMsg r c tx) = c4AmendedLine r c tx := by
  rcases r with _ | r <;> rcases c with _ | c <;> rcases tx with _ | tx <;>
    simp [msgLine, mkMsg, c4AmendedLine, textOfMsg, getField, lookupField,
      jsTruthyV, jsToString] <;>
    first
      | rfl
      | (split_ifs <;>
          simp_all [show ("unknown" ++ ": " : String) = "unknown: " from rfl])

theorem truthyOpt_some (v : JsonV) : truthyOpt (some v) = jsTruthyV v := rfl

theorem truthyOpt_none : truthyOpt none = false := rfl

theorem lookupField_filter_ne (fs : List (String × JsonV)) (k : String) :
    lookupField (fs.filter (fun p => p.1 != k)) k = none := by
  induction fs with
  | nil => rfl
  | cons p rest ih =>
    by_cases hp : p.1 = k
    · simp [List.filter_cons, hp, ih]
    · simp [List.filter_cons, hp, lookupField, ih]

theorem getField_removeKey (body : JsonV) (k : String) :
    getField (removeKey body k) k = none := by
  cases body with
  | obj fs => exact lookupField_filter_ne fs k
  | null => rfl
  | bool b => rfl
  | num n => rfl
  | str s => rfl
  | arr xs => rfl

/-! ## Claim theorems -/

/-- Claim C1, counterexample.  The claim says every request whose signature
header value (after stripping `sha256=`) differs from the HMAC hex digest is
answered 401 with the generation collaborator never invoked.  Concretely:
with a configured secret and a digest of 64 `0`s, the signature `deadbeef`
differs from the digest, yet the handler proceeds all the way to invoking
the generation collaborator — `crypto.timingSafeEqual` throws on the 4-byte
buffer and webhook.js lines 61–64 catch the error and continue. -/
theorem c1_counterexample :
    stripSha "deadbeef" ≠
      (fun (_ _ : String) => zeros64) "k"
        (rawBodyOf (JsonV.obj [("transcript", JsonV.str "hi")])) ∧
    webhookHandler (fun _ _ => zeros64) (some "k")
        ⟨"POST", [("elevenlabs-signature", "deadbeef")],
          JsonV.obj [("transcript", JsonV.str "hi")]⟩ =
      .generate (JsonV.str "hi") := by
  exact ⟨by decide, rfl⟩

/-- Claim C1, amended: for every webhook POST carrying a signature header
(under any accepted name) whose value, after stripping an optional
`sha256=` prefix, hex-decodes to the same byte length as the configured
secret's digest but to different bytes, the handler responds 401
(`Invalid signature`) and the generation collaborator is never invoked. -/
theorem c1_amended (hmacHex : String → String → String) (sec s : String)
    (req : HttpRequest) (hm : req.method = "POST")
    (hs : resolvedSignature req.headers = some s) (hst : s ≠ "") (hsec : sec ≠ "")
    (hlen : (hexDecode (stripSha s)).length =
      (hexDecode (hmacHex sec (rawBodyOf req.body))).length)
    (hne : hexDecode (stripSha s) ≠ hexDecode (hmacHex sec (rawBodyOf req.body))) :
    webhookHandler hmacHex (some sec) req = .unauthorized ∧
      ∀ t, webhookHandler hmacHex (some sec) req ≠ .generate t := by
  have hv := verify_fail_of_mismatch hmacHex sec (rawBodyOf req.body) s hsec hlen hne
  have h1 : webhookHandler hmacHex (some sec) req = .unauthorized := by
    rw [webhookHandler_post_form _ _ _ hm, hs]
    simp [jsTruthyS, hst, hsec, hv]
  exact ⟨h1, fun t ht => by rw [h1] at ht; exact WebhookOutcome.noConfusion ht⟩

/-- Witness for `c1_amended` at a concrete request: a `sha256=`-prefixed
signature of 64 `f`s against a digest of 64 `0`s (equal decoded lengths,
different bytes) is rejected with 401. -/
theorem c1_amended_witness :
    (hexDecode (stripSha ("sha256=" ++ effs64))).length =
      (hexDecode ((fun (_ _ : String) => zeros64) "k" (rawBodyOf (JsonV.obj [])))).length ∧
    hexDecode (stripSha ("sha256=" ++ effs64)) ≠
      hexDecode ((fun (_ _ : String) => zeros64) "k" (rawBodyOf (JsonV.obj []))) ∧
    webhookHandler (fun _ _ => zeros64) (some "k")
        ⟨"POST", [("x-elevenlabs-signature", "sha256=" ++ effs64)], JsonV.obj []⟩ =
      .unauthorized := by
  refine ⟨by decide, by decide, ?_⟩
  exact (c1_amended (fun _ _ => zeros64) "k" ("sha256=" ++ effs64)
    ⟨"POST", [("x-elevenlabs-signature", "sha256=" ++ effs64)], JsonV.obj []⟩
    rfl rfl (by decide) (by decide) (by decide) (by decide)).1

/-- Claim C2: when the presented signature (after stripping `sha256=`)
hex-decodes to a byte length different from the digest's,
`crypto.timingSafeEqual` throws, the handler catches the error and
continues processing as if authenticated (transcript extraction and the
generation decision proceed exactly as for an authenticated request, and
no 401 is returned); and conversely a 401 arises only from a signature
that decodes to the digest's length and compares unequal. -/
theorem c2_exception_continues :
    (∀ (hmacHex : String → String → String) (sec s : String) (req : HttpRequest),
      req.method = "POST" → resolvedSignature req.headers = some s →
      s ≠ "" → sec ≠ "" →
      (hexDecode (stripSha s)).length ≠
        (hexDecode (hmacHex sec (rawBodyOf req.body))).length →
      webhookHandler hmacHex (some sec) req = postAuthOutcome req.body ∧
        webhookHandler hmacHex (some sec) req ≠ .unauthorized) ∧
    (∀ (hmacHex : String → String → String) (secret : Option String)
        (req : HttpRequest),
      webhookHandler hmacHex secret req = .unauthorized →
      (hexDecode (stripSha ((resolvedSignature req.headers).getD ""))).length =
        (hexDecode (hmacHex (secret.getD "") (rawBodyOf req.body))).length ∧
      hexDecode (stripSha ((resolvedSignature req.headers).getD "")) ≠
        hexDecode (hmacHex (secret.getD "") (rawBodyOf req.body))) := by
  constructor
  · intro hmacHex sec s req hm hs hst hsec hlen
    have hv := verify_thrown_of_length hmacHex sec (rawBodyOf req.body) s hsec hlen
    have h1 : webhookHandler hmacHex (some sec) req = postAuthOutcome req.body := by
      rw [webhookHandler_post_form _ _ _ hm, hs]
      simp [jsTruthyS, hst, hsec, hv]
    exact ⟨h1, fun ht => by rw [h1] at ht; exact postAuth_ne_unauthorized _ ht⟩
  · intro hmacHex secret req h
    by_cases h1 : req.method = "OPTIONS"
    · unfold webhookHandler at h
      simp [h1] at h
    by_cases h2 : req.method = "POST"
    · rw [webhookHandler_post_form _ _ _ h2] at h
      by_cases hg : (jsTruthyS (resolvedSignature req.headers) && jsTruthyS secret) = true
      · rw [if_pos hg] at h
        rcases hv : verifyHmacSignature hmacHex secret (rawBodyOf req.body)
            ((resolvedSignature req.headers).getD "") with _ | _ | _
        · rw [hv] at h
          simp at h
          exact absurd h (postAuth_ne_unauthorized _)
        · have hsec : jsTruthyS secret = true := by
            have hg2 := hg
            simp [Bool.and_eq_true] at hg2
            exact hg2.2
          unfold verifyHmacSignature at hv
          rw [if_neg (by simp [hsec])] at hv
          dsimp only at hv
          split_ifs at hv with hA hB
          exact ⟨not_not.mp hA, hB⟩
        · rw [hv] at h
          simp at h
          exact absurd h (postAuth_ne_unauthorized _)
      · rw [if_neg hg] at h
        exact absurd h (postAuth_ne_unauthorized _)
    · unfold webhookHandler at h
      rw [if_neg h1, if_pos h2] at h
      exact absurd h (by simp)

/-- Witness for `c2_exception_continues` at a concrete request: signature
`deadbeef` (4 decoded bytes) against a 32-byte digest makes verification
throw, and the handler continues to the post-authentication outcome. -/
theorem c2_witness :
    (hexDecode (stripSha "deadbeef")).length ≠
      (hexDecode ((fun (_ _ : String) => zeros64) "s3"
        (rawBodyOf (JsonV.obj [("transcript", JsonV.str "yo")])))).length ∧
    webhookHandler (fun _ _ => zeros64) (some "s3")
        ⟨"POST", [("x-signature", "deadbeef")],
          JsonV.obj [("transcript", JsonV.str "yo")]⟩ =
      postAuthOutcome (JsonV.obj [("transcript", JsonV.str "yo")]) := by
  refine ⟨by decide, ?_⟩
  exact (c2_exception_continues.1 (fun _ _ => zeros64) "s3" "deadbeef"
    ⟨"POST", [("x-signature", "deadbeef")],
      JsonV.obj [("transcript", JsonV.str "yo")]⟩
    rfl rfl (by decide) (by decide) (by decide)).1

/-- Claim C3, code bug.  webhook.js line 45 sets
`rawBody = JSON.stringify(req.body)` — a reserialization of the
platform-parsed body — and verifies the HMAC over that, not over the raw
wire bytes the claim (and the spec, and the code's own comment
"Get the raw body for HMAC verification") requires.  Concretely: the wire
body `{ "transcript": "hi" }` (with whitespace) parses to a body whose
reserialization differs from the wire bytes, so a request whose signature
is the correct digest of the exact wire bytes is rejected 401. -/
theorem c3_raw_body_bug :
    parseJsonText "\x7b \"transcript\": \"hi\" \x7d" =
      some (JsonV.obj [("transcript", JsonV.str "hi")]) ∧
    rawBodyOf (JsonV.obj [("transcript", JsonV.str "hi")]) ≠
      "\x7b \"transcript\": \"hi\" \x7d" ∧
    webhookHandler
        (fun _ p => if p = "\x7b \"transcript\": \"hi\" \x7d" then effs64 else zeros64)
        (some "k")
        ⟨"POST", [("elevenlabs-signature", effs64)],
          JsonV.obj [("transcript", JsonV.str "hi")]⟩ =
      .unauthorized := by
  refine ⟨rfl, by decide, rfl⟩

/-- Claim C4, counterexample.  The claim's reading of the `messages` shape
— role interpolated verbatim with "unknown" only for an *absent* role, and
the text taken from a *present* `content` — fails on the element
`{role: "", content: "", text: "hi"}`: the code (JS `||` falsiness) yields
the line `unknown: hi`, while the claim's wording yields `: `. -/
theorem c4_counterexample :
    extractTranscript
        (JsonV.obj [("messages", JsonV.arr
          [JsonV.obj [("role", JsonV.str ""), ("content", JsonV.str ""),
                      ("text", JsonV.str "hi")]])]) =
      some (JsonV.str "unknown: hi") ∧
    c4SpecLine (some "") (some "") (some "hi") = ": " ∧
    ("unknown: hi" : String) ≠ ": " := by
  refine ⟨rfl, rfl, by decide⟩

/-- Claim C4, amended: the four shapes are evaluated in the fixed order
with the first *truthy* (non-empty) match winning even when several
coexist, and the `messages` reconstruction joins `"{role}: {text}"` lines
in array order where the role defaults to "unknown" when absent *or
empty* and the text is the first non-empty of `content` then `text`,
defaulting to the empty string. -/
theorem c4_amended :
    (∀ (body v : JsonV), getField body "transcript" = some v →
      jsTruthyV v = true → extractTranscript body = some v) ∧
    (∀ (body v : JsonV),
      truthyOpt (getField body "transcript") = false →
      ((getField body "data").bind (fun d => getField d "transcript")) = some v →
      jsTruthyV v = true → extractTranscript body = some v) ∧
    (∀ (body v : JsonV),
      truthyOpt (getField body "transcript") = false →
      truthyOpt ((getField body "data").bind (fun d => getField d "transcript")) = false →
      ((getField body "conversation").bind (fun c => getField c "transcript")) = some v →
      jsTruthyV v = true → extractTranscript body = some v) ∧
    (∀ (body : JsonV) (ms : List (Option String × Option String × Option String)),
      truthyOpt (getField body "transcript") = false →
      truthyOpt ((getField body "data").bind (fun d => getField d "transcript")) = false →
      truthyOpt ((getField body "conversation").bind (fun c => getField c "transcript")) = false →
      getField body "messages" =
        some (JsonV.arr (ms.map (fun p => mkMsg p.1 p.2.1 p.2.2))) →
      extractTranscript body =
        some (JsonV.str (String.intercalate "\n"
          (ms.map (fun p => c4AmendedLine p.1 p.2.1 p.2.2))))) := by
  refine ⟨?_, ?_, ?_, ?_⟩
  · intro body v hv ht
    unfold extractTranscript
    rw [hv]
    simp [truthyOpt_some, ht]
  · intro body v h1 hdt ht
    unfold extractTranscript
    rw [hdt]
    simp [h1, truthyOpt_some, ht]
  · intro body v h1 h2 hct ht
    unfold extractTranscript
    rw [hct]
    simp [h1, h2, truthyOpt_some, ht]
  · intro body ms h1 h2 h3 hms
    unfold extractTranscript
    rw [hms]
    simp [h1, h2, h3, isArrayTruthy, arrElems, List.map_map]
    rw [show (msgLine ∘ fun p : Option String × Option String × Option String =>
        mkMsg p.1 p.2.1 p.2.2) =
      (fun p : Option String × Option String × Option String =>
        c4AmendedLine p.1 p.2.1 p.2.2) from funext fun p => msgLine_mkMsg p.1 p.2.1 p.2.2]

/-- Witness for `c4_amended` on the spec's concrete scenario B:
`{"messages":[{"role":"user","content":"Hi"},{"role":"agent","text":"Hello!"}]}`
extracts to `"user: Hi\nagent: Hello!"`. -/
theorem c4_amended_witness :
    truthyOpt (getField (mkMessagesBody
      [(some "user", some "Hi", none), (some "agent", none, some "Hello!")])
      "transcript") = false ∧
    extractTranscript (mkMessagesBody
        [(some "user", some "Hi", none), (some "agent", none, some "Hello!")]) =
      some (JsonV.str "user: Hi\nagent: Hello!") :=
  ⟨rfl,
    c4_amended.2.2.2 (mkMessagesBody
        [(some "user", some "Hi", none), (some "agent", none, some "Hello!")])
      [(some "user", some "Hi", none), (some "agent", none, some "Hello!")]
      rfl rfl rfl rfl⟩

/-- Claim C5: a POST webhook request that passes the authentication gate
and from whose body none of the four shapes yields a truthy transcript is
answered 200 `{received: true, ..., payload_keys}` carrying the body's
keys, and the generation collaborator is never invoked. -/
theorem c5_no_transcript_ack (hmacHex : String → String → String)
    (secret : Option String) (req : HttpRequest)
    (hm : req.method = "POST")
    (hauth : (jsTruthyS (resolvedSignature req.headers) && jsTruthyS secret) = false ∨
      verifyHmacSignature hmacHex secret (rawBodyOf req.body)
        ((resolvedSignature req.headers).getD "") ≠ .fail)
    (hnt : truthyOpt (extractTranscript req.body) = false) :
    webhookHandler hmacHex secret req = .acknowledged (jsKeys req.body) ∧
      ∀ t, webhookHandler hmacHex secret req ≠ .generate t := by
  have hpost : postAuthOutcome req.body = .acknowledged (jsKeys req.body) := by
    unfold postAuthOutcome
    simp [hnt]
  have h1 : webhookHandler hmacHex secret req = .acknowledged (jsKeys req.body) := by
    rw [webhookHandler_post_form _ _ _ hm]
    rcases hauth with hg | hv
    · rw [if_neg (by simp [hg])]
      exact hpost
    · by_cases hg : (jsTruthyS (resolvedSignature req.headers) &&
          jsTruthyS secret) = true
      · rw [if_pos hg]
        rcases hvv : verifyHmacSignature hmacHex secret (rawBodyOf req.body)
            ((resolvedSignature req.headers).getD "") with _ | _ | _
        · exact hpost
        · exact absurd hvv hv
        · exact hpost
      · rw [if_neg hg]
        exact hpost
  exact ⟨h1, fun t ht => by rw [h1] at ht; exact WebhookOutcome.noConfusion ht⟩

/-- Witness for `c5_no_transcript_ack`: an unsigned POST with body
`{"event": "ping"}` is acknowledged with `payload_keys = ["event"]`. -/
theorem c5_witness :
    truthyOpt (extractTranscript (JsonV.obj [("event", JsonV.str "ping")])) = false ∧
    webhookHandler (fun _ _ => zeros64) none
        ⟨"POST", [], JsonV.obj [("event", JsonV.str "ping")]⟩ =
      .acknowledged ["event"] :=
  ⟨rfl, (c5_no_transcript_ack (fun _ _ => zeros64) none
    ⟨"POST", [], JsonV.obj [("event", JsonV.str "ping")]⟩
    rfl (Or.inl rfl) rfl).1⟩

/-- Claim C6, counterexample.  The claim says a persistence failure never
turns the response into a 500, citing both generate.js and part_001 — but
part_001 awaits `saveToSupabase` with no inner try/catch (line 65), so
when generation succeeds and the save throws, the outer catch returns the
500 `{error: 'Failed to process', details}`. -/
theorem c6_counterexample :
    part001Handler (fun _ => .ok (JsonV.obj [("businessInfo", JsonV.str "b")]))
        (.error "Supabase error: boom") "fb"
        ⟨"POST", [], JsonV.obj [("transcript", JsonV.str "hi")]⟩ =
      .serverError "Failed to process" "Supabase error: boom" := rfl

/-- Claim C6, amended: in the direct-submission handler (generate.js) the
KV write sits in a try/catch whose catch only logs, so the response and
the generation-call flag are entirely independent of the KV outcome (a
storage failure still yields the 200 with the documents inline); in the
Supabase webhook variant (part_001), a persistence write failure
propagates to the catch-all and the request fails with a 500. -/
theorem c6_amended :
    (∀ (gen : JsonV → Except String JsonV) (kv kv2 : Except String Unit)
        (sid : String) (req : HttpRequest),
      (generateHandler gen kv sid req).resp = (generateHandler gen kv2 sid req).resp ∧
      (generateHandler gen kv sid req).generationCalled =
        (generateHandler gen kv2 sid req).generationCalled) ∧
    (∀ (gen : JsonV → Except String JsonV) (e fsid : String)
        (req : HttpRequest) (ws : JsonV),
      req.method = "POST" →
      truthyOpt (extractTranscript req.body) = true →
      gen ((extractTranscript req.body).getD .null) = .ok ws →
      part001Handler gen (.error e) fsid req =
        .serverError "Failed to process" e) := by
  constructor
  · intro gen kv kv2 sid req
    unfold generateHandler
    split_ifs <;> try exact ⟨rfl, rfl⟩
    cases hg : gen ((getField req.body "transcript").getD JsonV.null) with
    | error e => simp [hg]
    | ok ws =>
      simp [hg]
      split_ifs <;> exact ⟨rfl, rfl⟩
  · intro gen e fsid req ws hm ht hg
    unfold part001Handler
    rw [hm, if_neg (by decide), if_neg (by decide)]
    simp [ht, hg]

/-- Witness for `c6_amended`, Supabase part at a concrete request (the KV
part has no hypotheses): generation succeeds, the save fails, the
part_001 response is the 500. -/
theorem c6_amended_witness :
    truthyOpt (extractTranscript (JsonV.obj [("transcript", JsonV.str "t")])) = true ∧
    part001Handler (fun _ => .ok (JsonV.obj [])) (.error "Supabase error: x") "s"
        ⟨"POST", [], JsonV.obj [("transcript", JsonV.str "t")]⟩ =
      .serverError "Failed to process" "Supabase error: x" :=
  ⟨rfl, c6_amended.2 (fun _ => .ok (JsonV.obj [])) "Supabase error: x" "s"
    ⟨"POST", [], JsonV.obj [("transcript", JsonV.str "t")]⟩
    (JsonV.obj []) rfl rfl rfl⟩

/-- Claim C7: a POST to the direct-submission endpoint whose body has no
`transcript` field is answered 400 `{error: 'No transcript provided'}`
and the generation collaborator is never invoked. -/
theorem c7_missing_transcript_400 (gen : JsonV → Except String JsonV)
    (kv : Except String Unit) (sid : String) (req : HttpRequest)
    (hm : req.method = "POST")
    (hnt : getField req.body "transcript" = none) :
    (generateHandler gen kv sid req).resp = .badRequest "No transcript provided" ∧
    (generateHandler gen kv sid req).generationCalled = false := by
  unfold generateHandler
  rw [hm, if_neg (by decide), if_neg (by decide), hnt]
  exact ⟨rfl, rfl⟩

/-- Witness for `c7_missing_transcript_400`: a body carrying only
`businessName` yields the 400 and no generation call. -/
theorem c7_witness :
    getField (JsonV.obj [("businessName", JsonV.str "B")]) "transcript" = none ∧
    (generateHandler (fun _ => .error "never") (.ok ()) "site_1_abc"
        ⟨"POST", [], JsonV.obj [("businessName", JsonV.str "B")]⟩).resp =
      .badRequest "No transcript provided" ∧
    (generateHandler (fun _ => .error "never") (.ok ()) "site_1_abc"
        ⟨"POST", [], JsonV.obj [("businessName", JsonV.str "B")]⟩).generationCalled =
      false :=
  ⟨rfl,
    (c7_missing_transcript_400 (fun _ => .error "never") (.ok ()) "site_1_abc"
      ⟨"POST", [], JsonV.obj [("businessName", JsonV.str "B")]⟩ rfl rfl).1,
    (c7_missing_transcript_400 (fun _ => .error "never") (.ok ()) "site_1_abc"
      ⟨"POST", [], JsonV.obj [("businessName", JsonV.str "B")]⟩ rfl rfl).2⟩

/-- Claim C10: at the direct-submission endpoint a `transcript` field that
is absent or present with any falsy value (empty string, null, false, 0)
is handled identically: 400 `{error: 'No transcript provided'}`, no
generation call, and the whole handler result coincides with that for the
body with the field deleted. -/
theorem c10_falsy_transcript (gen : JsonV → Except String JsonV)
    (kv : Except String Unit) (sid : String) (req : HttpRequest)
    (hm : req.method = "POST")
    (hf : truthyOpt (getField req.body "transcript") = false) :
    (generateHandler gen kv sid req).resp = .badRequest "No transcript provided" ∧
    (generateHandler gen kv sid req).generationCalled = false ∧
    generateHandler gen kv sid req =
      generateHandler gen kv sid ⟨req.method, req.headers, removeKey req.body "transcript"⟩ := by
  have hrem : truthyOpt (getField (removeKey req.body "transcript") "transcript") = false := by
    rw [getField_removeKey]
    rfl
  refine ⟨?_, ?_, ?_⟩ <;>
    · unfold generateHandler
      rw [hm]
      simp [hf, hrem]

/-- Witness for `c10_falsy_transcript` at two falsy shapes: `transcript`
present as `null` and as the empty string both produce the 400 with no
generation call. -/
theorem c10_witness :
    truthyOpt (getField (JsonV.obj [("transcript", JsonV.null)]) "transcript") = false ∧
    (generateHandler (fun _ => .error "never") (.ok ()) "sid"
        ⟨"POST", [], JsonV.obj [("transcript", JsonV.null)]⟩).resp =
      .badRequest "No transcript provided" ∧
    (generateHandler (fun _ => .error "never") (.ok ()) "sid"
        ⟨"POST", [], JsonV.obj [("transcript", JsonV.str "")]⟩).generationCalled =
      false :=
  ⟨rfl,
    (c10_falsy_transcript (fun _ => .error "never") (.ok ()) "sid"
      ⟨"POST", [], JsonV.obj [("transcript", JsonV.null)]⟩ rfl rfl).1,
    (c10_falsy_transcript (fun _ => .error "never") (.ok ()) "sid"
      ⟨"POST", [], JsonV.obj [("transcript", JsonV.str "")]⟩ rfl rfl).2.1⟩

theorem unwrapGenerate_prefixed_tagWrap (pre seg : String)
    (hpre : '`' ∉ pre.data) (hseg : '`' ∉ seg.data) :
    unwrapGenerate (String.mk (pre.data ++ (tagWrap seg).data)) = jsTrimS seg := by
  have hsp : splitFirst ['`', '`', '`', 'j', 's', 'o', 'n']
      ((String.mk (pre.data ++ (tagWrap seg).data)).data) =
      some (pre.data, ('\n' :: (seg.data ++ ['\n'])) ++ ['`', '`', '`']) := by
    show splitFirst ['`', '`', '`', 'j', 's', 'o', 'n'] (pre.data ++ (tagWrap seg).data) = _
    rw [splitFirst_shift pre.data _ hpre, sf_json_tagWrap seg]
    simp
  unfold unwrapGenerate jsIncludes secondSegment
  simp only [show ("```json".data : List Char) = ['`', '`', '`', 'j', 's', 'o', 'n'] from rfl,
             show ("```".data : List Char) = ['`', '`', '`'] from rfl]
  rw [hsp]
  simp only [Option.isSome_some, if_true, Option.map_some', Option.getD_some]
  rw [headSegment_json_after seg hseg, headSegment_ticks_after _ (notMem_nl_wrap hseg)]
  show String.mk (jsTrimL ('\n' :: (seg.data ++ ['\n']))) = _
  rw [jsTrim_nl_wrap]
  rfl

/-- Claim C8, counterexample.  With an answer text that is valid JSON but
contains a fence marker inside a string value, the bare and the
fence-wrapped presentations unwrap to different strings in generate.js's
routine; and part_001's edge-slicing routine does not take the first
wrapped segment when the fence is preceded by prose, while generate.js's
split-based routine does. -/
theorem c8_counterexample :
    (parseJsonText
      "\x7b\"businessInfo\":\"info\",\"modern\":\"m```\",\"classic\":\"c\",\"warm\":\"w\"\x7d").isSome =
      true ∧
    unwrapGenerate
        "\x7b\"businessInfo\":\"info\",\"modern\":\"m```\",\"classic\":\"c\",\"warm\":\"w\"\x7d" ≠
      unwrapGenerate (tagWrap
        "\x7b\"businessInfo\":\"info\",\"modern\":\"m```\",\"classic\":\"c\",\"warm\":\"w\"\x7d") ∧
    unwrapPart001 "pre```json\nabc\n```" ≠ "abc" ∧
    unwrapGenerate "pre```json\nabc\n```" = "abc" := by
  refine ⟨rfl, by decide, by decide, rfl⟩

/-- Claim C8, amended: for fence-free (backtick-free) answer texts the
unwrap step is presentation-invariant — bare, language-tagged fenced and
bare fenced forms unwrap identically — in both generate.js's split-based
routine and part_001's slicing routine; and the split-based routine takes
the first wrapped segment even when the fence is preceded by
(backtick-free) prose, which part_001's routine does not. -/
theorem c8_amended (t pre seg : String)
    (ht : '`' ∉ t.data) (hpre : '`' ∉ pre.data) (hseg : '`' ∉ seg.data) :
    unwrapGenerate (tagWrap t) = unwrapGenerate t ∧
    unwrapGenerate (fenceWrap t) = unwrapGenerate t ∧
    unwrapPart001 (tagWrap t) = unwrapPart001 t ∧
    unwrapPart001 (fenceWrap t) = unwrapPart001 t ∧
    unwrapGenerate (String.mk (pre.data ++ (tagWrap seg).data)) = jsTrimS seg := by
  refine ⟨?_, ?_, ?_, ?_, ?_⟩
  · rw [unwrapGenerate_tagWrap t ht, unwrapGenerate_bare t ht]
  · rw [unwrapGenerate_fenceWrap t ht, unwrapGenerate_bare t ht]
  · rw [unwrapPart001_tagWrap t, unwrapPart001_bare t ht]
  · rw [unwrapPart001_fenceWrap t, unwrapPart001_bare t ht]
  · exact unwrapGenerate_prefixed_tagWrap pre seg hpre hseg

/-- Witness for `c8_amended` at concrete texts: wrapping `abc` in a tagged
fence unwraps like the bare form, and a prose-prefixed tagged fence around
`ok` unwraps to `ok` in the split-based routine. -/
theorem c8_amended_witness :
    ('`' ∉ ("abc" : String).data) ∧
    unwrapGenerate (tagWrap "abc") = unwrapGenerate "abc" ∧
    unwrapGenerate (String.mk (("Answer:" : String).data ++ (tagWrap "ok").data)) =
      jsTrimS "ok" :=
  ⟨by decide,
    (c8_amended "abc" "Answer:" "ok" (by decide) (by decide) (by decide)).1,
    (c8_amended "abc" "Answer:" "ok" (by decide) (by decide) (by decide)).2.2.2.2⟩

/-- Claim C9, counterexample.  The three unwrap routines are not equal as
string functions: on a tagged-fenced answer webhook.js's routine (no final
trim) keeps the surrounding newlines that generate.js's routine trims, and
on a prose-prefixed fenced answer part_001's slicing differs from
generate.js's splitting. -/
theorem c9_counterexample :
    unwrapGenerate "```json\nabc\n```" = "abc" ∧
    unwrapWebhook "```json\nabc\n```" = "\nabc\n" ∧
    unwrapGenerate "```json\nabc\n```" ≠ unwrapWebhook "```json\nabc\n```" ∧
    unwrapPart001 "pre```abc```" ≠ unwrapGenerate "pre```abc```" := by
  refine ⟨rfl, rfl, by decide, by decide⟩

/-- Claim C9, amended: the three embedded unwrap routines agree up to
trimming — for every backtick-free answer text, presented bare or exactly
fence-wrapped (tagged or bare), generate.js's and part_001's routines both
return the trimmed text and webhook.js's returns it up to surrounding
whitespace (equal after trimming). -/
theorem c9_amended (t : String) (ht : '`' ∉ t.data) :
    (unwrapGenerate t = jsTrimS t ∧ unwrapPart001 t = jsTrimS t ∧
      jsTrimS (unwrapWebhook t) = jsTrimS t) ∧
    (unwrapGenerate (tagWrap t) = jsTrimS t ∧ unwrapPart001 (tagWrap t) = jsTrimS t ∧
      jsTrimS (unwrapWebhook (tagWrap t)) = jsTrimS t) ∧
    (unwrapGenerate (fenceWrap t) = jsTrimS t ∧ unwrapPart001 (fenceWrap t) = jsTrimS t ∧
      jsTrimS (unwrapWebhook (fenceWrap t)) = jsTrimS t) := by
  have hweb : jsTrimS (String.mk ('\n' :: (t.data ++ ['\n']))) = jsTrimS t := by
    show String.mk (jsTrimL ('\n' :: (t.data ++ ['\n']))) = _
    rw [jsTrim_nl_wrap]
    rfl
  refine ⟨⟨unwrapGenerate_bare t ht, unwrapPart001_bare t ht, ?_⟩,
          ⟨unwrapGenerate_tagWrap t ht, unwrapPart001_tagWrap t, ?_⟩,
          ⟨unwrapGenerate_fenceWrap t ht, unwrapPart001_fenceWrap t, ?_⟩⟩
  · rw [unwrapWebhook_bare t ht]
  · rw [unwrapWebhook_tagWrap t ht]
    exact hweb
  · rw [unwrapWebhook_fenceWrap t ht]
    exact hweb

/-- Witness for `c9_amended` at the text `hello`: all three routines agree
after trimming across the three presentations. -/
theorem c9_amended_witness :
    ('`' ∉ ("hello" : String).data) ∧
    unwrapGenerate (tagWrap "hello") = jsTrimS "hello" ∧
    jsTrimS (unwrapWebhook (fenceWrap "hello")) = jsTrimS "hello" :=
  ⟨by decide,
    (c9_amended "hello" (by decide)).2.1.1,
    (c9_amended "hello" (by decide)).2.2.2.2⟩

end SpokenSite
